import Mathlib

/-!
Verification development for the Stock and Market Economics Data Scraper CLI
(`src/main.py`, `src/example_usage.py`).

The CLI dispatch in `main.py` is modelled as a pure function from parsed
arguments (`Args`) and an environment of fetch outcomes (`Env`, standing for
the scraper/client classes imported from the `scraper` module) to a trace of
observable effects (`Effect`): console prints, fetch-operation invocations,
CSV writes, and the traceback printed by the exception handler.

Pandas dataframes are modelled by `DataFrame` (column labels plus data rows);
`df.empty` is pandas' emptiness (no rows or no columns) and `len(df)` is the
number of data rows.  A fetch outcome is `Except String α`: `.error e`
models the Python call raising an exception with message `e`.
-/

/-- A pandas DataFrame, reduced to what `main.py` observes of it:
its column labels, its rows, emptiness and length. -/
structure DataFrame where
  cols : List String
  rows : List (List String)
deriving DecidableEq

/-- `df.empty` in pandas: true iff the frame has no rows or no columns. -/
def DataFrame.isEmptyDF (df : DataFrame) : Bool :=
  df.rows.isEmpty || df.cols.isEmpty

/-- `len(df)`: the number of data rows. -/
def DataFrame.lenDF (df : DataFrame) : Nat :=
  df.rows.length

/-- Stand-in for `df.to_string(index=False)` (pandas rendering is an external
collaborator; `main.py` only passes the frame through to it). -/
def DataFrame.toStringNoIndex (df : DataFrame) : String :=
  String.intercalate "\n"
    (String.intercalate " " df.cols :: df.rows.map (String.intercalate " "))

/-- Stand-in for `value.to_string()` (with the index), used for the
financial-statement frames in the `fundamental` default branch. -/
def DataFrame.toStringWithIndex (df : DataFrame) : String :=
  String.intercalate "\n"
    (String.intercalate " " df.cols ::
      (df.rows.enum.map fun p => toString p.1 ++ " " ++ String.intercalate " " p.2))

/-- A Python dict of scalars, as returned by `get_real_time_quote`,
`get_valuation_ratios`, `get_key_metrics`, `get_short_interest`. -/
def Dict : Type := List (String × String)

instance : DecidableEq Dict := by
  unfold Dict
  infer_instance

/-- `pd.DataFrame([d])`: a one-row frame whose columns are the dict's keys. -/
def dfOfRecord (d : Dict) : DataFrame :=
  { cols := d.map Prod.fst, rows := [d.map Prod.snd] }

/-- A value of the dict returned by `FundamentalScraper.get_financials`:
`main.py` only tests `isinstance(value, pd.DataFrame)` on it. -/
inductive FinValue where
  | df (d : DataFrame)
  | other
deriving DecidableEq

/-- A fetch operation of a scraper/client class, with the exact arguments
`main.py` passes to it. -/
inductive FetchCall where
  | getRealTimeQuote (symbol : String)
  | getIntradayData (symbol : String)
  | getHistoricalData (symbol : String) (startDate endDate : Option String) (period : String)
  | searchSeries (text : String)
  | getReleaseObservations (releaseId : Int) (lim : Option Int) (nextCursor : Option String)
  | getSeries (seriesId : String) (startDate endDate : Option String)
  | getValuationRatios (symbol : String)
  | getKeyMetrics (symbol : String)
  | getRevenueProfitTrend (symbol : String)
  | getFinancials (symbol : String)
  | getCompanyNews (symbol : String) (lim : Int)
  | getSecFilings (symbol : String) (filingType : Option String) (lim : Int)
  | getShortInterest (symbol : String)
  | getInstitutionalHoldings (symbol : String)
deriving DecidableEq

/-- An observable effect of a run of `main`. -/
inductive Effect where
  | print (s : String)
  | setOption (name : String)
  | call (c : FetchCall)
  | writeCSV (path : String) (df : DataFrame)
  | traceback
deriving DecidableEq

/-- The environment: outcome of each scraper/client operation (the `scraper`
module's classes, consumed as external collaborators), plus the `FRED_SERIES`
dict imported from `scraper` (not under `src/`, so its contents are abstract:
a partial map from upper-case friendly names to FRED series IDs). -/
structure Env where
  getRealTimeQuote : String → Except String Dict
  getIntradayData : String → Except String DataFrame
  getHistoricalData : String → Option String → Option String → String → Except String DataFrame
  searchSeries : String → Except String DataFrame
  getReleaseObservations : Int → Except String DataFrame
  getSeries : String → Option String → Option String → Except String DataFrame
  getValuationRatios : String → Except String Dict
  getKeyMetrics : String → Except String Dict
  getRevenueProfitTrend : String → Except String DataFrame
  getFinancials : String → Except String (List (String × FinValue))
  getCompanyNews : String → Int → Except String DataFrame
  getSecFilings : String → Option String → Int → Except String DataFrame
  getShortInterest : String → Except String Dict
  getInstitutionalHoldings : String → Except String DataFrame
  FRED_SERIES : String → Option String

/-- Parsed command-line arguments, one constructor per subcommand.
`Option` fields are argparse options that default to `None`; `Bool` fields
are `store_true` flags; `limit` fields are `type=int` options. -/
inductive Args where
  | stock (symbol : String) (quote : Bool) (period : String)
      (startDate endDate : Option String) (intraday : Bool) (output : Option String)
  | fred (series : Option String) (releaseId : Option Int)
      (startDate endDate : Option String) (search : Option String) (output : Option String)
  | fundamental (symbol : String) (ratios metrics trend : Bool) (output : Option String)
  | news (symbol : String) (lim : Int) (output : Option String)
  | sec (symbol : String) (filingType : Option String) (lim : Int) (output : Option String)
  | alternative (symbol : String) (shortInterest institutional : Bool) (output : Option String)
  | noCommand
deriving DecidableEq

/-- Python truthiness of an optional string argument:
`if args.x:` is true iff the option was given a non-empty value. -/
def optStrTruthy : Option String → Bool
  | none => false
  | some s => !s.isEmpty

/-- Python truthiness of an optional int argument:
`if args.x:` is true iff the option was given a non-zero value. -/
def optIntTruthy : Option Int → Bool
  | none => false
  | some n => n != 0

/-- The 60-character `'='*60` separator line. -/
def sep60 : String := String.mk (List.replicate 60 '=')

/-- `key.upper().replace('_', ' ')` from the financial-statements loop. -/
def upperReplaceUnderscore (s : String) : String :=
  (s.toUpper.map fun c => if c = '_' then ' ' else c)

/-- The three `print` statements of `print_dataframe`'s title banner
(emitted only when the title is truthy). -/
def bannerEffects (title : String) : List Effect :=
  [.print ("\n" ++ sep60), .print title, .print sep60]

/-- The body of `print_dataframe` after the banner: either the
`"No data available."` message, or the option settings, the rendered table
and the `"Rows: N"` line. -/
def tableEffects (df : DataFrame) : List Effect :=
  if df.isEmptyDF then [.print "No data available."]
  else
    [.setOption "display.max_columns", .setOption "display.width",
     .setOption "display.max_colwidth",
     .print df.toStringNoIndex,
     .print ("\nRows: " ++ toString df.lenDF)]

/-- `print_dataframe(df, title)` from `src/main.py` lines 21-36. -/
def print_dataframe (df : DataFrame) (title : String) : List Effect :=
  (if title.isEmpty then [] else bannerEffects title) ++ tableEffects df

/-- The `--output` block shared by `stock`, `news` and `sec`:
`if args.output: data.to_csv(...); print("\nData saved to ...")`. -/
def saveEffects (output : Option String) (df : DataFrame) : List Effect :=
  match output with
  | none => []
  | some path =>
    if path.isEmpty then []
    else [.writeCSV path df, .print ("\nData saved to " ++ path)]

/-- The `fred` output block, guarded on non-emptiness as well:
`if args.output and not data.empty: ...`. -/
def fredSaveEffects (output : Option String) (df : DataFrame) : List Effect :=
  match output with
  | none => []
  | some path =>
    if path.isEmpty || df.isEmptyDF then []
    else [.writeCSV path df, .print ("\nData saved to " ++ path)]

/-- The `--output` block of the `fundamental` and `alternative` branches:
a bare `to_csv` with no "Data saved" print. -/
def quietSaveEffects (output : Option String) (df : DataFrame) : List Effect :=
  match output with
  | none => []
  | some path =>
    if path.isEmpty then [] else [.writeCSV path df]

/-- One iteration of the `for key, value in financials.items()` loop
(`main.py` lines 191-194): a DataFrame value that is non-empty is printed
under its upper-cased key, everything else is skipped. -/
def finValueEffects (kv : String × FinValue) : List Effect :=
  match kv.2 with
  | .df d =>
    if d.isEmptyDF then []
    else [.print ("\n" ++ upperReplaceUnderscore kv.1 ++ ":"),
          .print d.toStringWithIndex]
  | .other => []

/-- The financial-statements printout of the `fundamental` default branch
(`main.py` lines 187-194). -/
def financialsEffects (symbol : String) (fin : List (String × FinValue)) : List Effect :=
  [.print ("\n" ++ sep60), .print ("Financial Statements: " ++ symbol), .print sep60] ++
  fin.flatMap finValueEffects

/-- Run one fetch operation inside the `try` block: record the call, and on
a raised exception abort with its message, otherwise continue with `k`. -/
def withFetch {α : Type} (c : FetchCall) (r : Except String α)
    (k : α → List Effect) : List Effect × Option String :=
  match r with
  | .error e => ([.call c], some e)
  | .ok v => (.call c :: k v, none)

/-- Stand-in for `parser.print_help()` output on a missing subcommand. -/
def helpText : String := "usage: main.py [-h] {stock,fred,fundamental,news,sec,alternative} ..."

/-- The body of `main`'s `try` block (`src/main.py` lines 115-231), given the
parsed arguments: the effect trace up to a raised exception, and the
exception's message when one was raised. -/
def tryMain (args : Args) (env : Env) : List Effect × Option String :=
  match args with
  | .noCommand => ([.print helpText], none)
  | .stock symbol quote period sd ed intraday output =>
    if quote then
      withFetch (.getRealTimeQuote symbol) (env.getRealTimeQuote symbol) fun q =>
        let data := dfOfRecord q
        print_dataframe data ("Real-time Quote: " ++ symbol) ++ saveEffects output data
    else if intraday then
      withFetch (.getIntradayData symbol) (env.getIntradayData symbol) fun data =>
        print_dataframe data ("Intraday Data: " ++ symbol) ++ saveEffects output data
    else
      withFetch (.getHistoricalData symbol sd ed period)
          (env.getHistoricalData symbol sd ed period) fun data =>
        print_dataframe data ("Historical Data: " ++ symbol) ++ saveEffects output data
  | .fred series releaseId sd ed search output =>
    if optStrTruthy search then
      let s := search.getD ""
      withFetch (.searchSeries s) (env.searchSeries s) fun data =>
        print_dataframe data ("FRED Series Search: " ++ s) ++ fredSaveEffects output data
    else if optIntTruthy releaseId then
      let rid := releaseId.getD 0
      withFetch (.getReleaseObservations rid none none)
          (env.getReleaseObservations rid) fun data =>
        print_dataframe data ("FRED Release " ++ toString rid) ++ fredSaveEffects output data
    else if optStrTruthy series then
      let s := series.getD ""
      let seriesId := (env.FRED_SERIES s.toUpper).getD s
      withFetch (.getSeries seriesId sd ed) (env.getSeries seriesId sd ed) fun data =>
        print_dataframe data ("FRED Series: " ++ seriesId) ++ fredSaveEffects output data
    else ([.print "Please specify --series, --release-id, or --search"], none)
  | .fundamental symbol ratios metrics trend output =>
    if ratios then
      withFetch (.getValuationRatios symbol) (env.getValuationRatios symbol) fun r =>
        print_dataframe (dfOfRecord r) ("Valuation Ratios: " ++ symbol) ++
          quietSaveEffects output (dfOfRecord r)
    else if metrics then
      withFetch (.getKeyMetrics symbol) (env.getKeyMetrics symbol) fun m =>
        print_dataframe (dfOfRecord m) ("Key Metrics: " ++ symbol) ++
          quietSaveEffects output (dfOfRecord m)
    else if trend then
      withFetch (.getRevenueProfitTrend symbol) (env.getRevenueProfitTrend symbol) fun t =>
        print_dataframe t ("Revenue/Profit Trend: " ++ symbol) ++ quietSaveEffects output t
    else
      withFetch (.getFinancials symbol) (env.getFinancials symbol) fun fin =>
        financialsEffects symbol fin
  | .news symbol lim output =>
    withFetch (.getCompanyNews symbol lim) (env.getCompanyNews symbol lim) fun data =>
      print_dataframe data ("Company News: " ++ symbol) ++ saveEffects output data
  | .sec symbol ft lim output =>
    withFetch (.getSecFilings symbol ft lim) (env.getSecFilings symbol ft lim) fun data =>
      print_dataframe data ("SEC Filings: " ++ symbol) ++ saveEffects output data
  | .alternative symbol shortInterest institutional output =>
    if shortInterest then
      withFetch (.getShortInterest symbol) (env.getShortInterest symbol) fun d =>
        print_dataframe (dfOfRecord d) ("Short Interest: " ++ symbol) ++
          quietSaveEffects output (dfOfRecord d)
    else if institutional then
      withFetch (.getInstitutionalHoldings symbol) (env.getInstitutionalHoldings symbol) fun d =>
        print_dataframe d ("Institutional Holdings: " ++ symbol) ++ quietSaveEffects output d
    else ([.print "Please specify --short-interest or --institutional"], none)

/-- The `except Exception` handler of `main` (`src/main.py` lines 233-236):
on a raised exception, print `Error: <message>` and the traceback and return
normally; otherwise the trace is the body's trace. -/
def mainWrap (p : List Effect × Option String) : List Effect :=
  match p.2 with
  | none => p.1
  | some e => p.1 ++ [.print ("Error: " ++ e), .traceback]

/-- One run of `main()` with already-parsed arguments: the full effect trace.
Its total type (`List Effect`, not `Except`) reflects that `main` never
propagates a fetch exception to its caller. -/
def mainRun (args : Args) (env : Env) : List Effect :=
  mainWrap (tryMain args env)

/-- The fetch calls recorded in a trace, in order. -/
def callsOf (t : List Effect) : List FetchCall :=
  t.filterMap fun e =>
    match e with
    | .call c => some c
    | _ => none

/-- The CSV writes recorded in a trace, in order. -/
def writesOf (t : List Effect) : List (String × DataFrame) :=
  t.filterMap fun e =>
    match e with
    | .writeCSV p df => some (p, df)
    | _ => none

/-- Modelled from the spec: `FREDClient.get_release_observations` lives in
`scraper.py`, which is not under `src/`; the spec describes the repository's
pagination as "pagination cursor pass-through".  The outgoing HTTP request
parameters carry the caller's `next_cursor` string unchanged, next to the
release id and the optional limit. -/
def fredReleaseObsParams (releaseId : Int) (lim : Option Int)
    (nextCursor : Option String) : List (String × String) :=
  [("release_id", toString releaseId)] ++
  (match lim with
   | some l => [("limit", toString l)]
   | none => []) ++
  (match nextCursor with
   | some c => [("next_cursor", c)]
   | none => [])

/-- The next-page call documented by `example_fred_data` in
`src/example_usage.py` line 64: release id 52, default limit, and the cursor
string `ABSITCMDODFS,1995-01-01` passed as a single argument. -/
def examplePaginationNextPage : FetchCall :=
  .getReleaseObservations 52 none (some "ABSITCMDODFS,1995-01-01")

/-- The cursor argument of a `get_release_observations` call, `none` for
every other operation. -/
def cursorOfCall : FetchCall → Option String
  | .getReleaseObservations _ _ c => c
  | _ => none

/-! ### Trace lemmas -/

theorem callsOf_append (a b : List Effect) : callsOf (a ++ b) = callsOf a ++ callsOf b :=
  List.filterMap_append a b _

theorem writesOf_append (a b : List Effect) : writesOf (a ++ b) = writesOf a ++ writesOf b :=
  List.filterMap_append a b _

theorem callsOf_print_dataframe (df : DataFrame) (t : String) :
    callsOf (print_dataframe df t) = [] := by
  unfold print_dataframe bannerEffects tableEffects
  rw [callsOf_append]
  split <;> split <;> simp [callsOf]

theorem writesOf_print_dataframe (df : DataFrame) (t : String) :
    writesOf (print_dataframe df t) = [] := by
  unfold print_dataframe bannerEffects tableEffects
  rw [writesOf_append]
  split <;> split <;> simp [writesOf]

theorem callsOf_saveEffects (o : Option String) (df : DataFrame) :
    callsOf (saveEffects o df) = [] := by
  unfold saveEffects
  split <;> try split
  all_goals simp [callsOf]

theorem callsOf_fredSaveEffects (o : Option String) (df : DataFrame) :
    callsOf (fredSaveEffects o df) = [] := by
  unfold fredSaveEffects
  split <;> try split
  all_goals simp [callsOf]

theorem callsOf_quietSaveEffects (o : Option String) (df : DataFrame) :
    callsOf (quietSaveEffects o df) = [] := by
  unfold quietSaveEffects
  split <;> try split
  all_goals simp [callsOf]

theorem callsOf_finValueEffects (kv : String × FinValue) :
    callsOf (finValueEffects kv) = [] := by
  unfold finValueEffects
  split <;> try split
  all_goals simp [callsOf]

theorem writesOf_finValueEffects (kv : String × FinValue) :
    writesOf (finValueEffects kv) = [] := by
  unfold finValueEffects
  split <;> try split
  all_goals simp [writesOf]

theorem callsOf_flatMap_nil {α : Type} (f : α → List Effect) (l : List α)
    (h : ∀ a, callsOf (f a) = []) : callsOf (l.flatMap f) = [] := by
  induction l with
  | nil => rfl
  | cons a l ih => rw [List.flatMap_cons, callsOf_append, h a, ih]; rfl

theorem writesOf_flatMap_nil {α : Type} (f : α → List Effect) (l : List α)
    (h : ∀ a, writesOf (f a) = []) : writesOf (l.flatMap f) = [] := by
  induction l with
  | nil => rfl
  | cons a l ih => rw [List.flatMap_cons, writesOf_append, h a, ih]; rfl

theorem callsOf_financialsEffects (s : String) (fin : List (String × FinValue)) :
    callsOf (financialsEffects s fin) = [] := by
  unfold financialsEffects
  rw [callsOf_append, callsOf_flatMap_nil _ _ callsOf_finValueEffects]
  simp [callsOf]

theorem writesOf_financialsEffects (s : String) (fin : List (String × FinValue)) :
    writesOf (financialsEffects s fin) = [] := by
  unfold financialsEffects
  rw [writesOf_append, writesOf_flatMap_nil _ _ writesOf_finValueEffects]
  simp [writesOf]

theorem mainWrap_withFetch_error {α : Type} (c : FetchCall) (e : String)
    (k : α → List Effect) :
    mainWrap (withFetch c (.error e) k) =
      [.call c, .print ("Error: " ++ e), .traceback] := rfl

theorem mainWrap_withFetch_ok {α : Type} (c : FetchCall) (v : α)
    (k : α → List Effect) :
    mainWrap (withFetch c (.ok v) k) = .call c :: k v := rfl

theorem callsOf_mainWrap_withFetch {α : Type} (c : FetchCall) (r : Except String α)
    (k : α → List Effect) (h : ∀ v, callsOf (k v) = []) :
    callsOf (mainWrap (withFetch c r k)) = [c] := by
  cases r with
  | error e => rw [mainWrap_withFetch_error]; simp [callsOf]
  | ok v =>
    rw [mainWrap_withFetch_ok]
    have hc : callsOf (.call c :: k v) = c :: callsOf (k v) := rfl
    rw [hc, h v]

theorem writesOf_mainWrap_withFetch_ok {α : Type} (c : FetchCall) (v : α)
    (k : α → List Effect) :
    writesOf (mainWrap (withFetch c (.ok v) k)) = writesOf (k v) := by
  rw [mainWrap_withFetch_ok]
  rfl

/-! ### Test environments (concrete external-collaborator behaviours) -/

/-- An environment in which every fetch succeeds with small fixed data. -/
def envOk : Env where
  getRealTimeQuote := fun _ => .ok [("current_price", "100")]
  getIntradayData := fun _ => .ok ⟨["Close"], [["100"]]⟩
  getHistoricalData := fun _ _ _ _ => .ok ⟨["Close"], [["100"], ["101"]]⟩
  searchSeries := fun _ => .ok ⟨["id"], [["GDP"]]⟩
  getReleaseObservations := fun _ => .ok ⟨["value"], [["1"]]⟩
  getSeries := fun _ _ _ => .ok ⟨["value"], [["1"], ["2"]]⟩
  getValuationRatios := fun _ => .ok [("pe_ratio", "10")]
  getKeyMetrics := fun _ => .ok [("revenue", "5")]
  getRevenueProfitTrend := fun _ => .ok ⟨["revenue"], [["5"]]⟩
  getFinancials := fun _ => .ok [("income_statement", .df ⟨["a"], [["1"]]⟩)]
  getCompanyNews := fun _ _ => .ok ⟨["title"], [["t1"]]⟩
  getSecFilings := fun _ _ _ => .ok ⟨["filing_type"], [["10-K"]]⟩
  getShortInterest := fun _ => .ok [("short_ratio", "2")]
  getInstitutionalHoldings := fun _ => .ok ⟨["holder"], [["h1"]]⟩
  FRED_SERIES := fun s => if s = "GDP" then some "GDP" else none

/-- An environment in which every dataframe-returning fetch succeeds with an
empty frame. -/
def envOkEmpty : Env where
  getRealTimeQuote := fun _ => .ok []
  getIntradayData := fun _ => .ok ⟨[], []⟩
  getHistoricalData := fun _ _ _ _ => .ok ⟨[], []⟩
  searchSeries := fun _ => .ok ⟨[], []⟩
  getReleaseObservations := fun _ => .ok ⟨[], []⟩
  getSeries := fun _ _ _ => .ok ⟨[], []⟩
  getValuationRatios := fun _ => .ok []
  getKeyMetrics := fun _ => .ok []
  getRevenueProfitTrend := fun _ => .ok ⟨[], []⟩
  getFinancials := fun _ => .ok []
  getCompanyNews := fun _ _ => .ok ⟨[], []⟩
  getSecFilings := fun _ _ _ => .ok ⟨[], []⟩
  getShortInterest := fun _ => .ok []
  getInstitutionalHoldings := fun _ => .ok ⟨[], []⟩
  FRED_SERIES := fun _ => none

/-- An environment in which every fetch raises an exception. -/
def envErr : Env where
  getRealTimeQuote := fun _ => .error "boom"
  getIntradayData := fun _ => .error "boom"
  getHistoricalData := fun _ _ _ _ => .error "boom"
  searchSeries := fun _ => .error "boom"
  getReleaseObservations := fun _ => .error "boom"
  getSeries := fun _ _ _ => .error "boom"
  getValuationRatios := fun _ => .error "boom"
  getKeyMetrics := fun _ => .error "boom"
  getRevenueProfitTrend := fun _ => .error "boom"
  getFinancials := fun _ => .error "boom"
  getCompanyNews := fun _ _ => .error "boom"
  getSecFilings := fun _ _ _ => .error "boom"
  getShortInterest := fun _ => .error "boom"
  getInstitutionalHoldings := fun _ => .error "boom"
  FRED_SERIES := fun _ => none

/-! ### Shape lemmas about `tryMain` and `mainWrap` -/

theorem callsOf_mainWrap (p : List Effect × Option String) :
    callsOf (mainWrap p) = callsOf p.1 := by
  rcases p with ⟨t, o⟩
  cases o with
  | none => rfl
  | some e =>
    show callsOf (t ++ [.print ("Error: " ++ e), .traceback]) = callsOf t
    rw [callsOf_append]
    simp [callsOf]

theorem writesOf_mainWrap (p : List Effect × Option String) :
    writesOf (mainWrap p) = writesOf p.1 := by
  rcases p with ⟨t, o⟩
  cases o with
  | none => rfl
  | some e =>
    show writesOf (t ++ [.print ("Error: " ++ e), .traceback]) = writesOf t
    rw [writesOf_append]
    simp [writesOf]

theorem callsOf_withFetch_fst {α : Type} (c : FetchCall) (r : Except String α)
    (k : α → List Effect) (h : ∀ v, callsOf (k v) = []) :
    callsOf (withFetch c r k).1 = [c] := by
  cases r with
  | error e => rfl
  | ok v =>
    have hc : callsOf (withFetch c (.ok v) k).1 = c :: callsOf (k v) := rfl
    rw [hc, h v]

theorem withFetch_shape {α : Type} (c : FetchCall) (r : Except String α)
    (k : α → List Effect) :
    (withFetch c r k).2 = none ∨ ∃ c2 e, withFetch c r k = ([.call c2], some e) := by
  cases r with
  | error e => exact Or.inr ⟨c, e, rfl⟩
  | ok v => exact Or.inl rfl

theorem tryMain_shape (args : Args) (env : Env) :
    (tryMain args env).2 = none ∨ ∃ c e, tryMain args env = ([.call c], some e) := by
  cases args <;> simp only [tryMain] <;> repeat' split
  all_goals first
    | exact Or.inl rfl
    | exact Or.inl trivial
    | exact withFetch_shape _ _ _

theorem callsOf_tryMain_fst (args : Args) (env : Env) :
    callsOf (tryMain args env).1 = [] ∨ ∃ c, callsOf (tryMain args env).1 = [c] := by
  cases args <;> simp only [tryMain] <;> repeat' split
  all_goals first
    | exact Or.inl rfl
    | exact Or.inr ⟨_, callsOf_withFetch_fst _ _ _ (fun v => by
        simp only [callsOf_append, callsOf_print_dataframe, callsOf_saveEffects,
          callsOf_fredSaveEffects, callsOf_quietSaveEffects, callsOf_financialsEffects,
          List.append_nil, List.nil_append])⟩

/-! ### Further helper lemmas -/

theorem writesOf_withFetch_fst_ok {α : Type} (c : FetchCall) (v : α)
    (k : α → List Effect) :
    writesOf (withFetch c (.ok v) k).1 = writesOf (k v) := rfl

theorem writesOf_saveEffects_some {df : DataFrame} {p : String} (hp : p.isEmpty = false) :
    writesOf (saveEffects (some p) df) = [(p, df)] := by
  simp [saveEffects, hp, writesOf]

theorem writesOf_saveEffects_none (df : DataFrame) :
    writesOf (saveEffects none df) = [] := rfl

theorem writesOf_saveEffects_empty (df : DataFrame) :
    writesOf (saveEffects (some "") df) = [] := rfl

theorem writesOf_fredSaveEffects_some {df : DataFrame} {p : String} (hp : p.isEmpty = false) :
    writesOf (fredSaveEffects (some p) df) = if df.isEmptyDF then [] else [(p, df)] := by
  simp only [fredSaveEffects, hp, Bool.false_or]
  split <;> simp [writesOf]

theorem writesOf_fredSaveEffects_none (df : DataFrame) :
    writesOf (fredSaveEffects none df) = [] := rfl

/-! ### The claims -/

/-- Claim C3: for every dataframe and title, `print_dataframe` prints the
`'='*60` banner containing the title exactly when the title is non-empty;
then, if the dataframe is empty (pandas `df.empty`) it prints
`No data available.` and returns without printing a row count, and otherwise
it prints the table without its index followed by `Rows: N` where `N` equals
the number of rows of the dataframe. -/
theorem C3_print_dataframe_spec (df : DataFrame) (title : String) :
    (title ≠ "" →
      print_dataframe df title =
        [.print ("\n" ++ sep60), .print title, .print sep60] ++ tableEffects df) ∧
    (title = "" → print_dataframe df title = tableEffects df) ∧
    (df.isEmptyDF = true → tableEffects df = [.print "No data available."]) ∧
    (df.isEmptyDF = false →
      tableEffects df =
        [.setOption "display.max_columns", .setOption "display.width",
         .setOption "display.max_colwidth",
         .print df.toStringNoIndex,
         .print ("\nRows: " ++ toString df.rows.length)]) := by
  refine ⟨?_, ?_, ?_, ?_⟩
  · intro h
    have he : title.isEmpty = false := by
      cases ht : title.isEmpty
      · rfl
      · exact absurd ((String.isEmpty_iff title).mp ht) h
    simp [print_dataframe, bannerEffects, he]
  · intro h
    subst h
    have he : "".isEmpty = true := rfl
    simp [print_dataframe, he]
  · intro h
    simp [tableEffects, h]
  · intro h
    simp [tableEffects, h, DataFrame.lenDF]

/-- Instantiation of `C3_print_dataframe_spec` at concrete inputs: a two-row
frame with a title, and an empty frame. -/
theorem C3_print_dataframe_spec_witness :
    (print_dataframe ⟨["a"], [["1"], ["2"]]⟩ "T" =
      [.print ("\n" ++ sep60), .print "T", .print sep60] ++
        tableEffects ⟨["a"], [["1"], ["2"]]⟩) ∧
    (tableEffects ⟨[], []⟩ = [.print "No data available."]) ∧
    (tableEffects ⟨["a"], [["1"], ["2"]]⟩ =
      [.setOption "display.max_columns", .setOption "display.width",
       .setOption "display.max_colwidth",
       .print (DataFrame.toStringNoIndex ⟨["a"], [["1"], ["2"]]⟩),
       .print ("\nRows: " ++ toString ([["1"], ["2"]] : List (List String)).length)]) :=
  ⟨(C3_print_dataframe_spec ⟨["a"], [["1"], ["2"]]⟩ "T").1 (by decide),
   (C3_print_dataframe_spec ⟨[], []⟩ "").2.2.1 (by decide),
   (C3_print_dataframe_spec ⟨["a"], [["1"], ["2"]]⟩ "").2.2.2 (by decide)⟩

/-- Claim C9: for the stock command the three modes are mutually prioritised:
`--quote` wins regardless of `--intraday`; with `--quote` absent and
`--intraday` given the intraday path is taken; and the historical path, with
the `--period` value and the start and end dates forwarded, is taken only
when neither flag is given. -/
theorem C9_stock_mode_priority (symbol period : String) (sd ed output : Option String)
    (env : Env) :
    (∀ intraday : Bool,
      callsOf (mainRun (.stock symbol true period sd ed intraday output) env) =
        [.getRealTimeQuote symbol]) ∧
    callsOf (mainRun (.stock symbol false period sd ed true output) env) =
      [.getIntradayData symbol] ∧
    callsOf (mainRun (.stock symbol false period sd ed false output) env) =
      [.getHistoricalData symbol sd ed period] := by
  refine ⟨fun intraday => ?_, ?_, ?_⟩ <;>
    simp only [mainRun, tryMain, if_true, if_false, Bool.false_eq_true, ite_false,
      ite_true] <;>
    rw [callsOf_mainWrap] <;>
    exact callsOf_withFetch_fst _ _ _ (fun v => by
      simp only [callsOf_append, callsOf_print_dataframe, callsOf_saveEffects,
        List.append_nil, List.nil_append])

/-- Claim C8: the fred dispatch tests `--release-id` for truthiness, so
`--release-id 0` behaves exactly as if the option were absent: the whole run
is identical to a run without it; with a (truthy) `--series` the series
branch is taken; and with neither `--series` nor `--search` the program
prints the `Please specify` message and returns without calling any
`FREDClient` method or writing any file. -/
theorem C8_fred_releaseId_truthiness (sd ed output : Option String) (env : Env) :
    (∀ series search : Option String,
      mainRun (.fred series (some 0) sd ed search output) env =
        mainRun (.fred series none sd ed search output) env) ∧
    (∀ s : String, s.isEmpty = false →
      callsOf (mainRun (.fred (some s) (some 0) sd ed none output) env) =
        [.getSeries ((env.FRED_SERIES s.toUpper).getD s) sd ed]) ∧
    mainRun (.fred none (some 0) sd ed none output) env =
      [.print "Please specify --series, --release-id, or --search"] := by
  have h0 : optIntTruthy (some 0) = optIntTruthy none := by decide
  refine ⟨fun series search => ?_, fun s hs => ?_, ?_⟩
  · simp only [mainRun, tryMain, h0, Option.getD_some, Option.getD_none]
  · simp only [mainRun, tryMain, optStrTruthy, optIntTruthy, hs, Bool.not_false,
      if_true, Bool.false_eq_true, ite_false, ite_true, Option.getD_some]
    rw [callsOf_mainWrap]
    exact callsOf_withFetch_fst _ _ _ (fun v => by
      simp only [callsOf_append, callsOf_print_dataframe, callsOf_fredSaveEffects,
        List.append_nil, List.nil_append])
  · simp only [mainRun, tryMain, optStrTruthy, optIntTruthy]
    norm_num
    rfl

/-- Instantiation of `C8_fred_releaseId_truthiness` at `--series GDP`,
discharging the truthiness hypothesis. -/
theorem C8_fred_releaseId_truthiness_witness :
    callsOf (mainRun (.fred (some "GDP") (some 0) none none none none) envOk) =
      [.getSeries ((envOk.FRED_SERIES "GDP".toUpper).getD "GDP") none none] :=
  (C8_fred_releaseId_truthiness none none none envOk).2.1 "GDP" (by decide)

/-- Claim C4: for the fred command with a (truthy) `--series` argument and
neither `--search` nor a truthy `--release-id`, the argument is upper-cased
and looked up in the `FRED_SERIES` mapping; the mapped series ID is used when
the upper-cased key is present, otherwise the original argument is passed to
`FREDClient.get_series` unchanged, with `--start-date` and `--end-date`
forwarded unmodified. -/
theorem C4_fred_series_mapping (env : Env) (s : String) (hs : s.isEmpty = false)
    (sd ed output : Option String) :
    callsOf (mainRun (.fred (some s) none sd ed none output) env) =
      [.getSeries ((env.FRED_SERIES s.toUpper).getD s) sd ed] ∧
    (∀ mapped, env.FRED_SERIES s.toUpper = some mapped →
      callsOf (mainRun (.fred (some s) none sd ed none output) env) =
        [.getSeries mapped sd ed]) ∧
    (env.FRED_SERIES s.toUpper = none →
      callsOf (mainRun (.fred (some s) none sd ed none output) env) =
        [.getSeries s sd ed]) := by
  have h1 : callsOf (mainRun (.fred (some s) none sd ed none output) env) =
      [.getSeries ((env.FRED_SERIES s.toUpper).getD s) sd ed] := by
    simp only [mainRun, tryMain, optStrTruthy, optIntTruthy, hs, Bool.not_false,
      if_true, Bool.false_eq_true, ite_false, ite_true, Option.getD_some]
    rw [callsOf_mainWrap]
    exact callsOf_withFetch_fst _ _ _ (fun v => by
      simp only [callsOf_append, callsOf_print_dataframe, callsOf_fredSaveEffects,
        List.append_nil, List.nil_append])
  refine ⟨h1, fun mapped hm => ?_, fun hm => ?_⟩
  · rw [h1, hm, Option.getD_some]
  · rw [h1, hm, Option.getD_none]

/-- Instantiation of `C4_fred_series_mapping` at `--series GDP` under
`envOkEmpty`, whose mapping is empty, so the original argument is forwarded. -/
theorem C4_fred_series_mapping_witness :
    callsOf (mainRun (.fred (some "GDP") none none none none none) envOkEmpty) =
      [.getSeries "GDP" none none] :=
  (C4_fred_series_mapping envOkEmpty "GDP" (by decide) none none none).2.2 rfl

/-- Counterexample to claim C1 as stated: the `--output` argument is supplied
(with the legal value `""`), the stock fetch succeeds, yet no CSV file is
written, because `main.py` line 140 tests `args.output` for Python
truthiness, not for presence. -/
theorem C1_counterexample :
    (some "" : Option String) ≠ none ∧
    writesOf (mainRun (.stock "AAPL" false "1y" none none false (some "")) envOk) = [] := by
  refine ⟨by simp, ?_⟩
  rfl

/-- Claim C1 (amended): for the stock, news and sec commands, after a
successful fetch the printed table is written as CSV to the `--output` path
iff `--output` was supplied with a truthy (non-empty) value; when it is
absent (or empty) no file is written, and when it is truthy the file is
written even if the fetched dataframe is empty. -/
theorem C1_output_truthy_write (env : Env) (symbol period : String)
    (sd ed ft : Option String) (lim : Int) (df : DataFrame) (q : Dict)
    (p : String) (hp : p.isEmpty = false) :
    (env.getRealTimeQuote symbol = .ok q →
      writesOf (mainRun (.stock symbol true period sd ed false (some p)) env) =
        [(p, dfOfRecord q)] ∧
      writesOf (mainRun (.stock symbol true period sd ed false none) env) = [] ∧
      writesOf (mainRun (.stock symbol true period sd ed false (some "")) env) = []) ∧
    (env.getIntradayData symbol = .ok df →
      writesOf (mainRun (.stock symbol false period sd ed true (some p)) env) = [(p, df)] ∧
      writesOf (mainRun (.stock symbol false period sd ed true none) env) = [] ∧
      writesOf (mainRun (.stock symbol false period sd ed true (some "")) env) = []) ∧
    (env.getHistoricalData symbol sd ed period = .ok df →
      writesOf (mainRun (.stock symbol false period sd ed false (some p)) env) = [(p, df)] ∧
      writesOf (mainRun (.stock symbol false period sd ed false none) env) = [] ∧
      writesOf (mainRun (.stock symbol false period sd ed false (some "")) env) = []) ∧
    (env.getCompanyNews symbol lim = .ok df →
      writesOf (mainRun (.news symbol lim (some p)) env) = [(p, df)] ∧
      writesOf (mainRun (.news symbol lim none) env) = [] ∧
      writesOf (mainRun (.news symbol lim (some "")) env) = []) ∧
    (env.getSecFilings symbol ft lim = .ok df →
      writesOf (mainRun (.sec symbol ft lim (some p)) env) = [(p, df)] ∧
      writesOf (mainRun (.sec symbol ft lim none) env) = [] ∧
      writesOf (mainRun (.sec symbol ft lim (some "")) env) = []) := by
  refine ⟨fun h => ?_, fun h => ?_, fun h => ?_, fun h => ?_, fun h => ?_⟩ <;>
  · refine ⟨?_, ?_, ?_⟩ <;>
    · simp only [mainRun, tryMain, if_true, if_false, Bool.false_eq_true, ite_false,
        ite_true, h, writesOf_mainWrap, writesOf_withFetch_fst_ok, writesOf_append,
        writesOf_print_dataframe, List.nil_append, writesOf_saveEffects_some hp,
        writesOf_saveEffects_none, writesOf_saveEffects_empty]

/-- Instantiation of `C1_output_truthy_write` under `envOkEmpty`: the news
fetch succeeds with an empty dataframe, and the file is still written when
`--output` is truthy, and not written when it is absent or empty. -/
theorem C1_output_truthy_write_witness :
    writesOf (mainRun (.news "AAPL" 20 (some "out.csv")) envOkEmpty) =
      [("out.csv", ⟨[], []⟩)] ∧
    writesOf (mainRun (.news "AAPL" 20 none) envOkEmpty) = [] ∧
    writesOf (mainRun (.news "AAPL" 20 (some "")) envOkEmpty) = [] :=
  (C1_output_truthy_write envOkEmpty "AAPL" "1y" none none none 20 ⟨[], []⟩ []
    "out.csv" (by decide)).2.2.2.1 rfl

/-- Claim C2: for the fred command the fetched dataframe is written to the
`--output` path only when `--output` is truthy and the dataframe is
non-empty; when the result is empty no file is written even though
`--output` was given.  Shown for all three fetch branches. -/
theorem C2_fred_output_guard (env : Env) (sd ed : Option String) (df : DataFrame)
    (p : String) (hp : p.isEmpty = false) :
    (∀ s : String, s.isEmpty = false → env.searchSeries s = .ok df →
      writesOf (mainRun (.fred none none sd ed (some s) (some p)) env) =
        (if df.isEmptyDF then [] else [(p, df)]) ∧
      writesOf (mainRun (.fred none none sd ed (some s) none) env) = []) ∧
    (∀ rid : Int, rid ≠ 0 → env.getReleaseObservations rid = .ok df →
      writesOf (mainRun (.fred none (some rid) sd ed none (some p)) env) =
        if df.isEmptyDF then [] else [(p, df)]) ∧
    (∀ s : String, s.isEmpty = false →
      env.getSeries ((env.FRED_SERIES s.toUpper).getD s) sd ed = .ok df →
      writesOf (mainRun (.fred (some s) none sd ed none (some p)) env) =
        if df.isEmptyDF then [] else [(p, df)]) := by
  refine ⟨fun s hs h => ⟨?_, ?_⟩, fun rid hr h => ?_, fun s hs h => ?_⟩
  · simp only [mainRun, tryMain, optStrTruthy, hs, Bool.not_false, if_true,
      Option.getD_some, h, writesOf_mainWrap, writesOf_withFetch_fst_ok,
      writesOf_append, writesOf_print_dataframe, List.nil_append,
      writesOf_fredSaveEffects_some hp]
  · simp only [mainRun, tryMain, optStrTruthy, hs, Bool.not_false, if_true,
      Option.getD_some, h, writesOf_mainWrap, writesOf_withFetch_fst_ok,
      writesOf_append, writesOf_print_dataframe, List.nil_append,
      writesOf_fredSaveEffects_none]
  · simp only [mainRun, tryMain, optStrTruthy, optIntTruthy, bne_iff_ne, ne_eq, hr,
      not_false_eq_true, if_true, Bool.false_eq_true, ite_false, ite_true,
      Option.getD_some, h, writesOf_mainWrap, writesOf_withFetch_fst_ok,
      writesOf_append, writesOf_print_dataframe, List.nil_append,
      writesOf_fredSaveEffects_some hp]
  · simp only [mainRun, tryMain, optStrTruthy, optIntTruthy, hs, Bool.not_false,
      if_true, Bool.false_eq_true, ite_false, ite_true, Option.getD_some, h,
      writesOf_mainWrap, writesOf_withFetch_fst_ok, writesOf_append,
      writesOf_print_dataframe, List.nil_append,
      writesOf_fredSaveEffects_some hp]

/-- Instantiation of `C2_fred_output_guard`: under `envOkEmpty` the search
result is empty and no file is written although `--output` was given; under
`envOk` the non-empty result is written. -/
theorem C2_fred_output_guard_witness :
    writesOf (mainRun (.fred none none none none (some "gdp") (some "out.csv")) envOkEmpty) =
      [] ∧
    writesOf (mainRun (.fred none none none none (some "gdp") (some "out.csv")) envOk) =
      [("out.csv", ⟨["id"], [["GDP"]]⟩)] :=
  ⟨((C2_fred_output_guard envOkEmpty none none ⟨[], []⟩ "out.csv" (by decide)).1
      "gdp" (by decide) rfl).1,
   ((C2_fred_output_guard envOk none none ⟨["id"], [["GDP"]]⟩ "out.csv" (by decide)).1
      "gdp" (by decide) rfl).1⟩

/-- Claim C5: the pagination cursor for FRED release observations is passed
through verbatim.  (i) In the spec-modelled request builder the caller's
cursor string appears unchanged (unparsed, unsplit) as the `next_cursor`
parameter, and is absent when no cursor is given; (ii) the documented
next-page call of `example_usage.py` carries the cursor string — comma
included — as one untransformed argument; (iii) `main.py`'s fred release
branch forwards `args.release_id` to `get_release_observations` with no
cursor manufactured or transformed. -/
theorem C5_cursor_passthrough :
    (∀ (releaseId : Int) (lim : Option Int) (c : String),
      (fredReleaseObsParams releaseId lim (some c)).lookup "next_cursor" = some c) ∧
    (∀ (releaseId : Int) (lim : Option Int),
      (fredReleaseObsParams releaseId lim none).lookup "next_cursor" = none) ∧
    cursorOfCall examplePaginationNextPage = some "ABSITCMDODFS,1995-01-01" ∧
    (∀ (rid : Int), rid ≠ 0 → ∀ (sd ed output : Option String) (env : Env),
      callsOf (mainRun (.fred none (some rid) sd ed none output) env) =
        [.getReleaseObservations rid none none]) := by
  refine ⟨fun releaseId lim c => ?_, fun releaseId lim => ?_, rfl, fun rid hr sd ed output env => ?_⟩
  · cases lim <;> simp [fredReleaseObsParams, List.lookup]
  · cases lim <;> simp [fredReleaseObsParams, List.lookup]
  · simp only [mainRun, tryMain, optStrTruthy, optIntTruthy, bne_iff_ne, ne_eq, hr,
      not_false_eq_true, if_true, Bool.false_eq_true, ite_false, ite_true,
      Option.getD_some]
    rw [callsOf_mainWrap]
    exact callsOf_withFetch_fst _ _ _ (fun v => by
      simp only [callsOf_append, callsOf_print_dataframe, callsOf_fredSaveEffects,
        List.append_nil, List.nil_append])

/-- Instantiation of `C5_cursor_passthrough` at release id 52 and the
documented cursor string. -/
theorem C5_cursor_passthrough_witness :
    (fredReleaseObsParams 52 none (some "ABSITCMDODFS,1995-01-01")).lookup "next_cursor" =
      some "ABSITCMDODFS,1995-01-01" ∧
    callsOf (mainRun (.fred none (some 52) none none none none) envOk) =
      [.getReleaseObservations 52 none none] :=
  ⟨C5_cursor_passthrough.1 52 none "ABSITCMDODFS,1995-01-01",
   C5_cursor_passthrough.2.2.2 52 (by decide) none none none envOk⟩

/-- Claim C6: in every run, at most one fetch operation is invoked (so no
operation is ever re-invoked and there is no retry logic); when the invoked
operation raises, the run's trace is the prefix up to the raise followed
exactly by the `Error: <message>` print and the traceback, after which
nothing further runs (in particular the handler adds no fetch calls). -/
theorem C6_at_most_one_fetch_no_retry (args : Args) (env : Env) :
    (callsOf (mainRun args env)).length ≤ 1 ∧
    (∀ e, (tryMain args env).2 = some e →
      mainRun args env = (tryMain args env).1 ++ [.print ("Error: " ++ e), .traceback] ∧
      callsOf (mainRun args env) = callsOf (tryMain args env).1) := by
  constructor
  · rw [mainRun, callsOf_mainWrap]
    rcases callsOf_tryMain_fst args env with h | ⟨c, h⟩ <;> rw [h] <;> simp
  · intro e he
    refine ⟨?_, ?_⟩
    · simp only [mainRun, mainWrap, he]
    · rw [mainRun, callsOf_mainWrap]

/-- Instantiation of `C6_at_most_one_fetch_no_retry` under `envErr`, where
the news fetch raises `boom`. -/
theorem C6_at_most_one_fetch_no_retry_witness :
    mainRun (.news "AAPL" 20 none) envErr =
      (tryMain (.news "AAPL" 20 none) envErr).1 ++
        [.print ("Error: " ++ "boom"), .traceback] ∧
    callsOf (mainRun (.news "AAPL" 20 none) envErr) =
      callsOf (tryMain (.news "AAPL" 20 none) envErr).1 :=
  (C6_at_most_one_fetch_no_retry (.news "AAPL" 20 none) envErr).2 "boom" rfl

/-- Claim C7: for every command, if the fetch raises then no output CSV is
written in that run (every `to_csv` lies after its fetch in the same branch),
and the exception is absorbed by `main`'s handler: the run still returns a
trace, ending with the formatted error print and the traceback instead of
propagating. -/
theorem C7_no_write_on_error (args : Args) (env : Env) (e : String)
    (h : (tryMain args env).2 = some e) :
    writesOf (mainRun args env) = [] ∧
    mainRun args env = (tryMain args env).1 ++ [.print ("Error: " ++ e), .traceback] := by
  refine ⟨?_, ?_⟩
  · rcases tryMain_shape args env with hn | ⟨c, e2, heq⟩
    · rw [hn] at h
      exact absurd h (by simp)
    · have he2 : e2 = e := by
        rw [heq] at h
        exact Option.some.inj h
      subst he2
      rw [mainRun, heq]
      rfl
  · simp only [mainRun, mainWrap, h]

/-- Instantiation of `C7_no_write_on_error` under `envErr` with `--output`
given: the fetch raises, and no CSV write appears in the trace. -/
theorem C7_no_write_on_error_witness :
    writesOf (mainRun (.news "AAPL" 20 (some "out.csv")) envErr) = [] ∧
    mainRun (.news "AAPL" 20 (some "out.csv")) envErr =
      (tryMain (.news "AAPL" 20 (some "out.csv")) envErr).1 ++
        [.print ("Error: " ++ "boom"), .traceback] :=
  C7_no_write_on_error (.news "AAPL" 20 (some "out.csv")) envErr "boom" rfl
